import Mathlib

/-
Verification of the WordPress MCP client (src/main.py): a shallow
embedding of its fetch / shape pipeline and the tool surface, with
theorems checking the specification's claims against it.
-/

namespace WP

/-- JSON values as parsed by Python's json module: objects are modelled as
association lists of key/value pairs (Python dicts of a parsed JSON body
have unique keys; lookup takes the first match). Numbers are modelled as
integers, which covers every field the shaping code touches. -/
inductive Json where
  | null
  | bool (b : Bool)
  | num (n : Int)
  | str (s : String)
  | arr (elems : List Json)
  | obj (entries : List (String × Json))
deriving Repr

/-- First-match lookup of a key in a JSON object's entry list, the meaning
of a Python dict subscript on a parsed JSON object. -/
def lookup : List (String × Json) → String → Option Json
  | [], _ => none
  | (k, v) :: rest, key => if key = k then some v else lookup rest key

/-- Keys of a JSON object's entry list. -/
def keysOf (entries : List (String × Json)) : List String :=
  entries.map Prod.fst

/-- Lookup of a key directly on a JSON value: `some` only when the value
is an object containing the key. -/
def jget : Json → String → Option Json
  | .obj entries, k => lookup entries k
  | _, _ => none

/-- Two-level lookup, for nested keys such as `title.rendered`. -/
def jget2 (j : Json) (k1 k2 : String) : Option Json :=
  match jget j k1 with
  | some inner => jget inner k2
  | none => none

/-- The Python exception classes the embedded code can raise.
`httpStatusError` is httpx.HTTPStatusError, raised both by
`raise_for_status` (src/main.py line 32) and by the invalid-JSON branch
(src/main.py lines 37-41). `keyError` / `typeError` are the builtin
exceptions a dict subscript raises. -/
inductive PyExcClass where
  | httpStatusError
  | keyError
  | typeError
deriving DecidableEq, Repr

/-- The request an httpx response records. -/
structure Request where
  url : String
deriving DecidableEq, Repr

/-- An httpx response: HTTP status code, raw body text, the originating
request, and the result of `response.json()` — `some` when the body is
valid JSON, `none` when parsing it raises ValueError. The JSON parser
itself is library code, so it is represented by this field. -/
structure Response where
  status : Nat
  body : String
  request : Request
  jsonBody : Option Json
deriving Repr

/-- A raised Python exception: its class, its message, and the response
attached to it (httpx.HTTPStatusError carries one; KeyError/TypeError
carry none). For KeyError the message is the missing key. -/
structure PyExc where
  cls : PyExcClass
  message : String
  response : Option Response
deriving Repr

/-- httpx `Response.is_success`: status in the 2xx range. -/
def is_success (status : Nat) : Bool :=
  200 ≤ status && status ≤ 299

/-- Python subscript `value[key]` with a string key: returns the entry of
a dict, raises KeyError (naming the key) when the dict lacks the key, and
raises TypeError when the value is not a dict. -/
def pyIndexStr (v : Json) (key : String) : Except PyExc Json :=
  match v with
  | .obj entries =>
    match lookup entries key with
    | some x => Except.ok x
    | none => Except.error ⟨PyExcClass.keyError, key, none⟩
  | _ => Except.error ⟨PyExcClass.typeError, "value is not subscriptable by string", none⟩

/-- The User-Agent header value (src/main.py line 16). The header is sent
on every GET; it does not otherwise affect the behaviour modelled here. -/
def USER_AGENT : String := "wordpress-app/1.0"

/-- fetch_post_response_data (src/main.py lines 21-41), over a network
oracle `net` mapping each URL to the single response of the one GET the
function performs. `raise_for_status` raises httpx.HTTPStatusError for
any status outside 2xx, carrying the request/response context; when the
status is 2xx but `response.json()` raises ValueError, the except branch
raises httpx.HTTPStatusError with a message built from the url and
`response.text`, with the same response attached. -/
def fetch_post_response_data (net : String → Response) (url : String) : Except PyExc Json :=
  let response := net url
  if is_success response.status then
    match response.jsonBody with
    | some j => Except.ok j
    | none =>
      Except.error ⟨PyExcClass.httpStatusError,
        "Invalid JSON response from " ++ url ++ ": " ++ response.body,
        some response⟩
  else
    Except.error ⟨PyExcClass.httpStatusError,
      "HTTP status error " ++ toString response.status ++ " for url " ++ url,
      some response⟩

/-- format_post_response_data (src/main.py lines 44-60): the dict literal
evaluates its value expressions left to right (id, date, link,
title.rendered, content.rendered, featured_media), each a subscript that
may raise; on success it returns the freshly built six-field dict. -/
def format_post_response_data (response : Json) : Except PyExc Json :=
  (pyIndexStr response "id").bind fun vid =>
  (pyIndexStr response "date").bind fun vdate =>
  (pyIndexStr response "link").bind fun vlink =>
  (pyIndexStr response "title").bind fun vtitle =>
  (pyIndexStr vtitle "rendered").bind fun vtitler =>
  (pyIndexStr response "content").bind fun vcontent =>
  (pyIndexStr vcontent "rendered").bind fun vcontentr =>
  (pyIndexStr response "featured_media").bind fun vfm =>
  Except.ok (Json.obj [("id", vid), ("date", vdate), ("link", vlink),
    ("title", vtitler), ("content", vcontentr), ("featured_media", vfm)])

/-- Python iteration over a JSON value, as the list comprehensions in the
tools use it: iterating a list yields its elements, iterating a dict
yields its keys, iterating a string yields its one-character strings, and
anything else raises TypeError. -/
def jsonIter : Json → Except PyExc (List Json)
  | .arr elems => Except.ok elems
  | .obj entries => Except.ok (entries.map (fun kv => Json.str kv.1))
  | .str s => Except.ok (s.toList.map (fun c => Json.str (String.singleton c)))
  | _ => Except.error ⟨PyExcClass.typeError, "value is not iterable", none⟩

/-- A Python list comprehension `[f x for x in xs]` over a fallible body:
elements are produced left to right and the first raised exception aborts
the whole comprehension. -/
def mapExcept (f : Json → Except PyExc Json) : List Json → Except PyExc (List Json)
  | [] => Except.ok []
  | x :: xs =>
    (f x).bind fun y =>
    (mapExcept f xs).bind fun ys =>
    Except.ok (y :: ys)

/-- URL built by fetch_posts_tool (src/main.py line 92), by f-string
interpolation of the base site URL and the two integer arguments. -/
def fetch_posts_url (base : String) (page per_page : Int) : String :=
  s!"{base}/wp-json/wp/v2/posts?page={page}&per_page={per_page}"

/-- Default value of the `page` parameter of fetch_posts_tool,
fetch_posts_by_category_tool and fetch_pages_tool (src/main.py lines 83,
99, 151). -/
def default_page : Int := 1

/-- Default value of the `per_page` parameter of fetch_posts_tool and
fetch_pages_tool (src/main.py lines 83, 151). -/
def default_per_page : Int := 2

/-- fetch_posts_tool (src/main.py lines 82-95): build the posts URL,
fetch, then shape every element of the response with
format_post_response_data in a list comprehension. `base` stands for the
WORDPRESS_URL configuration value. -/
def fetch_posts_tool (net : String → Response) (base : String) (page per_page : Int) :
    Except PyExc (List Json) :=
  (fetch_post_response_data net (fetch_posts_url base page per_page)).bind fun response_data =>
  (jsonIter response_data).bind fun posts =>
  mapExcept format_post_response_data posts

/-- URL built by fetch_posts_by_category_tool (src/main.py line 108):
plain f-string interpolation of the category string and page number, with
no quoting or percent-encoding. -/
def fetch_posts_by_category_url (base category : String) (page : Int) : String :=
  s!"{base}/wp-json/wp/v2/posts?categories={category}&page={page}"

/-- fetch_posts_by_category_tool (src/main.py lines 98-111). -/
def fetch_posts_by_category_tool (net : String → Response) (base category : String)
    (page : Int) : Except PyExc (List Json) :=
  (fetch_post_response_data net (fetch_posts_by_category_url base category page)).bind
    fun response_data =>
  (jsonIter response_data).bind fun posts =>
  mapExcept format_post_response_data posts

/-- The inline dict expression of the list comprehension in
fetch_categories_tool (src/main.py lines 124-129): four subscript reads
building a fresh four-field dict. -/
def shape_category (category : Json) : Except PyExc Json :=
  (pyIndexStr category "id").bind fun vid =>
  (pyIndexStr category "name").bind fun vname =>
  (pyIndexStr category "count").bind fun vcount =>
  (pyIndexStr category "link").bind fun vlink =>
  Except.ok (Json.obj [("id", vid), ("name", vname), ("count", vcount), ("link", vlink)])

/-- URL built by fetch_categories_tool (src/main.py line 121). -/
def fetch_categories_url (base : String) : String :=
  s!"{base}/wp-json/wp/v2/categories"

/-- fetch_categories_tool (src/main.py lines 114-131). -/
def fetch_categories_tool (net : String → Response) (base : String) :
    Except PyExc (List Json) :=
  (fetch_post_response_data net (fetch_categories_url base)).bind fun response_data =>
  (jsonIter response_data).bind fun categories =>
  mapExcept shape_category categories

/-- URL built by fetch_pages_tool (src/main.py line 160). -/
def fetch_pages_url (base : String) (page per_page : Int) : String :=
  s!"{base}/wp-json/wp/v2/pages?page={page}&per_page={per_page}"

/-- fetch_pages_tool (src/main.py lines 150-163). -/
def fetch_pages_tool (net : String → Response) (base : String) (page per_page : Int) :
    Except PyExc (List Json) :=
  (fetch_post_response_data net (fetch_pages_url base page per_page)).bind fun response_data =>
  (jsonIter response_data).bind fun pages =>
  mapExcept format_post_response_data pages

/-
Heap-level model of format_post_response_data, used only to state its
frame property (it reads its argument and allocates one fresh dict,
mutating nothing). Python values live on a heap addressed by Nat;
a dict maps keys to addresses of its values, every other value is an
immutable primitive. Allocation appends to the heap.
-/

/-- A heap-resident Python value: a dict of references, or an immutable
primitive (int, str, ...). -/
inductive HVal where
  | prim (j : Json)
  | dict (entries : List (String × Nat))
deriving Repr

/-- The heap: address `a` holds `h.get? a`; allocation appends. -/
abbrev Heap := List HVal

/-- Read the value at an address. -/
def heapGet (h : Heap) (a : Nat) : Option HVal :=
  List.get? h a

/-- First-match lookup in a dict's entry list (dicts of parsed JSON have
unique keys). -/
def lookupAddr : List (String × Nat) → String → Option Nat
  | [], _ => none
  | (k, v) :: rest, key => if key = k then some v else lookupAddr rest key

/-- Python subscript `h[a][key]` at heap level: KeyError when the dict
lacks the key, TypeError when the value at `a` is not a dict. -/
def pyIndexHeap (h : Heap) (a : Nat) (key : String) : Except PyExc Nat :=
  match heapGet h a with
  | some (.dict entries) =>
    match lookupAddr entries key with
    | some b => Except.ok b
    | none => Except.error ⟨PyExcClass.keyError, key, none⟩
  | _ => Except.error ⟨PyExcClass.typeError, "value is not subscriptable by string", none⟩

/-- format_post_response_data (src/main.py lines 44-60) at heap level:
the same eight subscript reads, then allocation of the fresh six-entry
dict as the only heap effect; returns the new heap and the address of the
freshly built dict. -/
def format_post_response_data_heap (h : Heap) (a : Nat) : Except PyExc (Heap × Nat) :=
  (pyIndexHeap h a "id").bind fun vid =>
  (pyIndexHeap h a "date").bind fun vdate =>
  (pyIndexHeap h a "link").bind fun vlink =>
  (pyIndexHeap h a "title").bind fun vtitle =>
  (pyIndexHeap h vtitle "rendered").bind fun vtitler =>
  (pyIndexHeap h a "content").bind fun vcontent =>
  (pyIndexHeap h vcontent "rendered").bind fun vcontentr =>
  (pyIndexHeap h a "featured_media").bind fun vfm =>
  Except.ok (h ++ [HVal.dict [("id", vid), ("date", vdate), ("link", vlink),
    ("title", vtitler), ("content", vcontentr), ("featured_media", vfm)]], h.length)

/-
Concrete fixtures: sample payloads and network oracles used to evaluate
the theorems on closed inputs.
-/

/-- A sample WordPress post object with the six required keys. -/
def samplePost : Json :=
  Json.obj [("id", Json.num 10), ("date", Json.str "2024-01-01T00:00:00"),
    ("link", Json.str "https://site/p/10"),
    ("title", Json.obj [("rendered", Json.str "Post ten")]),
    ("content", Json.obj [("rendered", Json.str "<p>Body ten</p>")]),
    ("featured_media", Json.num 0)]

/-- A second sample post, id 11. -/
def samplePost2 : Json :=
  Json.obj [("id", Json.num 11), ("date", Json.str "2024-01-02T00:00:00"),
    ("link", Json.str "https://site/p/11"),
    ("title", Json.obj [("rendered", Json.str "Post eleven")]),
    ("content", Json.obj [("rendered", Json.str "<p>Body eleven</p>")]),
    ("featured_media", Json.num 3)]

/-- Entry list of a malformed post object: the required "content" key is
absent. -/
def badPostEntries : List (String × Json) :=
  [("id", Json.num 12), ("date", Json.str "2024-01-03T00:00:00"),
   ("link", Json.str "https://site/p/12"),
   ("title", Json.obj [("rendered", Json.str "Post twelve")]),
   ("featured_media", Json.num 0)]

/-- A malformed post object: the required "content" key is absent. -/
def badPost : Json := Json.obj badPostEntries

/-- Entry list of a sample category object with exactly the four
required keys. -/
def sampleCategoryEntries : List (String × Json) :=
  [("id", Json.num 1), ("name", Json.str "News"),
   ("count", Json.num 5), ("link", Json.str "https://x/cat/news")]

/-- A sample category object with exactly the four required keys. -/
def sampleCategory : Json := Json.obj sampleCategoryEntries

/-- A network oracle serving a two-post list on the default posts URL and
404 elsewhere. -/
def netPosts : String → Response := fun url =>
  if url = "https://site/wp-json/wp/v2/posts?page=1&per_page=2" then
    ⟨200, "[two posts]", ⟨url⟩, some (Json.arr [samplePost, samplePost2])⟩
  else ⟨404, "not found", ⟨url⟩, none⟩

/-- A network oracle whose posts list contains a malformed second item. -/
def netPostsBad : String → Response := fun url =>
  if url = "https://site/wp-json/wp/v2/posts?page=1&per_page=2" then
    ⟨200, "[good, bad]", ⟨url⟩, some (Json.arr [samplePost, badPost])⟩
  else ⟨404, "not found", ⟨url⟩, none⟩

/-- A network oracle serving a one-category list on the categories URL. -/
def netCategories : String → Response := fun url =>
  if url = "https://site/wp-json/wp/v2/categories" then
    ⟨200, "[one category]", ⟨url⟩, some (Json.arr [sampleCategory])⟩
  else ⟨404, "not found", ⟨url⟩, none⟩

/-- A network oracle answering 404 with a plain-text body to every URL. -/
def net404W : String → Response := fun url =>
  ⟨404, "not found", ⟨url⟩, none⟩

/-- A network oracle answering 200 with a body that is not valid JSON. -/
def netBadBody : String → Response := fun url =>
  ⟨200, "<html>not json</html>", ⟨url⟩, none⟩

/-- A network oracle with one 200-but-invalid-JSON URL; 404 elsewhere. -/
def net_c1 : String → Response := fun url =>
  if url = "https://site/ok" then ⟨200, "<html>not json</html>", ⟨url⟩, none⟩
  else ⟨404, "not found", ⟨url⟩, none⟩

/-- The exception class of a failed fetch, `none` when the call returned. -/
def errClass (x : Except PyExc Json) : Option PyExcClass :=
  match x with
  | Except.error e => some e.cls
  | Except.ok _ => none

/-- The six top-level keys format_post_response_data reads
(src/main.py lines 53-58). -/
def postRequiredTopKeys : List String :=
  ["id", "date", "link", "title", "content", "featured_media"]

/-- The four keys the inline category shaping reads
(src/main.py lines 125-128). -/
def categoryRequiredKeys : List String := ["id", "name", "count", "link"]

/-- Every key path format_post_response_data reads is present in `r`. -/
def postAllPresent (r : Json) : Bool :=
  (jget r "id").isSome && (jget r "date").isSome && (jget r "link").isSome &&
  (jget2 r "title" "rendered").isSome && (jget2 r "content" "rendered").isSome &&
  (jget r "featured_media").isSome

/-- Every key the category shaping reads is present in `c`. -/
def catAllPresent (c : Json) : Bool :=
  (jget c "id").isSome && (jget c "name").isSome &&
  (jget c "count").isSome && (jget c "link").isSome

/-- `k` is a required key of a post object that is missing in `r`: either
a missing top-level key, or "rendered" missing under a present title or
content value. -/
def postKeyMissing (r : Json) (k : String) : Prop :=
  (k ∈ postRequiredTopKeys ∧ jget r k = none) ∨
  (k = "rendered" ∧
    ((∃ t, jget r "title" = some t ∧ jget t "rendered" = none) ∨
     (∃ c, jget r "content" = some c ∧ jget c "rendered" = none)))

/-- A concrete heap holding samplePost's field values at addresses 0-7
and the post dict itself at address 8. -/
def sampleHeap : Heap :=
  [HVal.prim (Json.num 10), HVal.prim (Json.str "2024-01-01T00:00:00"),
   HVal.prim (Json.str "https://site/p/10"), HVal.dict [("rendered", 4)],
   HVal.prim (Json.str "Post ten"), HVal.dict [("rendered", 6)],
   HVal.prim (Json.str "<p>Body ten</p>"), HVal.prim (Json.num 0),
   HVal.dict [("id", 0), ("date", 1), ("link", 2), ("title", 3),
     ("content", 5), ("featured_media", 7)]]

@[simp]
theorem except_bind_ok_eq {α β : Type} (a : α) (f : α → Except PyExc β) :
    (Except.ok a : Except PyExc α).bind f = f a := rfl

@[simp]
theorem except_bind_error_eq {α β : Type} (e : PyExc) (f : α → Except PyExc β) :
    (Except.error e : Except PyExc α).bind f = Except.error e := rfl

theorem toString_string (s : String) : toString s = s := rfl

theorem bind_eq_ok_iff {α β : Type} {x : Except PyExc α} {f : α → Except PyExc β} {b : β} :
    x.bind f = Except.ok b ↔ ∃ a, x = Except.ok a ∧ f a = Except.ok b := by
  cases x <;> simp [Except.bind]

theorem pyIndexStr_eq_ok_iff {v : Json} {k : String} {x : Json} :
    pyIndexStr v k = Except.ok x ↔ jget v k = some x := by
  cases v <;> simp [pyIndexStr, jget]
  case obj entries => cases h : lookup entries k <;> simp [h]

theorem pyIndexStr_obj_error {entries : List (String × Json)} {k : String}
    (h : lookup entries k = none) :
    pyIndexStr (Json.obj entries) k = Except.error ⟨PyExcClass.keyError, k, none⟩ := by
  simp [pyIndexStr, h]

theorem lookup_eq_none_iff {entries : List (String × Json)} {k : String} :
    lookup entries k = none ↔ k ∉ keysOf entries := by
  induction entries with
  | nil => simp [lookup, keysOf]
  | cons kv rest ih =>
    obtain ⟨k', v⟩ := kv
    by_cases hk : k = k' <;> simp [lookup, keysOf, hk] at ih ⊢ <;> simp [ih]

theorem lookup_isSome_of_mem {entries : List (String × Json)} {k : String}
    (h : k ∈ keysOf entries) : ∃ v, lookup entries k = some v := by
  cases hl : lookup entries k with
  | none => exact absurd (lookup_eq_none_iff.mp hl) (by simp [h])
  | some v => exact ⟨v, rfl⟩

theorem mapExcept_error_of_mem {f : Json → Except PyExc Json} {l : List Json}
    (h : ∃ x ∈ l, ∃ e, f x = Except.error e) :
    ∃ e, mapExcept f l = Except.error e := by
  induction l with
  | nil => simp at h
  | cons a as ih =>
    obtain ⟨x, hx, e, hfe⟩ := h
    rcases List.mem_cons.mp hx with hxa | hxas
    · subst hxa
      exact ⟨e, by simp [mapExcept, hfe]⟩
    · cases hfa : f a with
      | error e' => exact ⟨e', by simp [mapExcept, hfa]⟩
      | ok y =>
        obtain ⟨e'', htail⟩ := ih ⟨x, hxas, e, hfe⟩
        exact ⟨e'', by simp [mapExcept, hfa, htail]⟩

theorem mapExcept_ok_of_forall {f : Json → Except PyExc Json} {l : List Json}
    (h : ∀ x ∈ l, (f x).isOk = true) :
    ∃ l', mapExcept f l = Except.ok l' ∧
      List.Forall₂ (fun a b => f a = Except.ok b) l l' := by
  induction l with
  | nil => exact ⟨[], rfl, List.Forall₂.nil⟩
  | cons a as ih =>
    have ha := h a (List.mem_cons_self a as)
    cases hfa : f a with
    | error e => rw [hfa] at ha; simp [Except.isOk, Except.toBool] at ha
    | ok b =>
      obtain ⟨l', hmap, hrel⟩ := ih (fun x hx => h x (List.mem_cons_of_mem a hx))
      exact ⟨b :: l', by simp [mapExcept, hfa, hmap], List.Forall₂.cons hfa hrel⟩

theorem format_ok_elim {r s : Json} (h : format_post_response_data r = Except.ok s) :
    ∃ vid vdate vlink vtitle vtitler vcontent vcontentr vfm,
      jget r "id" = some vid ∧ jget r "date" = some vdate ∧
      jget r "link" = some vlink ∧ jget r "title" = some vtitle ∧
      jget vtitle "rendered" = some vtitler ∧ jget r "content" = some vcontent ∧
      jget vcontent "rendered" = some vcontentr ∧ jget r "featured_media" = some vfm ∧
      s = Json.obj [("id", vid), ("date", vdate), ("link", vlink),
        ("title", vtitler), ("content", vcontentr), ("featured_media", vfm)] := by
  rw [format_post_response_data] at h
  rw [bind_eq_ok_iff] at h
  obtain ⟨vid, h1, h⟩ := h
  rw [bind_eq_ok_iff] at h
  obtain ⟨vdate, h2, h⟩ := h
  rw [bind_eq_ok_iff] at h
  obtain ⟨vlink, h3, h⟩ := h
  rw [bind_eq_ok_iff] at h
  obtain ⟨vtitle, h4, h⟩ := h
  rw [bind_eq_ok_iff] at h
  obtain ⟨vtitler, h5, h⟩ := h
  rw [bind_eq_ok_iff] at h
  obtain ⟨vcontent, h6, h⟩ := h
  rw [bind_eq_ok_iff] at h
  obtain ⟨vcontentr, h7, h⟩ := h
  rw [bind_eq_ok_iff] at h
  obtain ⟨vfm, h8, h⟩ := h
  injection h with hs
  exact ⟨vid, vdate, vlink, vtitle, vtitler, vcontent, vcontentr, vfm,
    pyIndexStr_eq_ok_iff.mp h1, pyIndexStr_eq_ok_iff.mp h2,
    pyIndexStr_eq_ok_iff.mp h3, pyIndexStr_eq_ok_iff.mp h4,
    pyIndexStr_eq_ok_iff.mp h5, pyIndexStr_eq_ok_iff.mp h6,
    pyIndexStr_eq_ok_iff.mp h7, pyIndexStr_eq_ok_iff.mp h8, hs.symm⟩

theorem format_ok_fields {p s : Json} (h : format_post_response_data p = Except.ok s) :
    jget s "id" = jget p "id" ∧
    jget s "title" = jget2 p "title" "rendered" ∧
    jget s "content" = jget2 p "content" "rendered" := by
  obtain ⟨vid, vdate, vlink, vtitle, vtitler, vcontent, vcontentr, vfm,
    h1, h2, h3, h4, h5, h6, h7, h8, hs⟩ := format_ok_elim h
  subst hs
  have htr : jget2 p "title" "rendered" = some vtitler := by
    rw [jget2, h4]; exact h5
  have hcr : jget2 p "content" "rendered" = some vcontentr := by
    rw [jget2, h6]; exact h7
  refine ⟨?_, ?_, ?_⟩
  · rw [h1]; simp [jget, lookup]
  · rw [htr]; simp [jget, lookup]
  · rw [hcr]; simp [jget, lookup]

theorem fetch_ok_of_response {net : String → Response} {url : String} {j : Json}
    (hsucc : is_success (net url).status = true)
    (hbody : (net url).jsonBody = some j) :
    fetch_post_response_data net url = Except.ok j := by
  simp [fetch_post_response_data, hsucc, hbody]

theorem pyIndexHeap_ok_elim {h : Heap} {a : Nat} {k : String} {b : Nat}
    (hok : pyIndexHeap h a k = Except.ok b) :
    ∃ es, heapGet h a = some (HVal.dict es) ∧ lookupAddr es k = some b := by
  rw [pyIndexHeap] at hok
  cases hg : heapGet h a with
  | none => rw [hg] at hok; cases hok
  | some v =>
    cases v with
    | prim j => rw [hg] at hok; cases hok
    | dict es =>
      rw [hg] at hok
      cases hl : lookupAddr es k with
      | none => simp [hl] at hok
      | some b' =>
        simp [hl] at hok
        exact ⟨es, rfl, by rw [hl, hok]⟩

theorem shape_category_ok_elim {c s : Json} (h : shape_category c = Except.ok s) :
    ∃ vid vname vcount vlink,
      jget c "id" = some vid ∧ jget c "name" = some vname ∧
      jget c "count" = some vcount ∧ jget c "link" = some vlink ∧
      s = Json.obj [("id", vid), ("name", vname), ("count", vcount), ("link", vlink)] := by
  rw [shape_category] at h
  rw [bind_eq_ok_iff] at h
  obtain ⟨vid, h1, h⟩ := h
  rw [bind_eq_ok_iff] at h
  obtain ⟨vname, h2, h⟩ := h
  rw [bind_eq_ok_iff] at h
  obtain ⟨vcount, h3, h⟩ := h
  rw [bind_eq_ok_iff] at h
  obtain ⟨vlink, h4, h⟩ := h
  injection h with hs
  exact ⟨vid, vname, vcount, vlink, pyIndexStr_eq_ok_iff.mp h1,
    pyIndexStr_eq_ok_iff.mp h2, pyIndexStr_eq_ok_iff.mp h3,
    pyIndexStr_eq_ok_iff.mp h4, hs.symm⟩

example :
    format_post_response_data (Json.obj
      [("id", Json.num 10), ("date", Json.str "2024-01-01"),
       ("link", Json.str "https://x/p/10"),
       ("title", Json.obj [("rendered", Json.str "T")]),
       ("content", Json.obj [("rendered", Json.str "C")]),
       ("featured_media", Json.num 0)]) =
    Except.ok (Json.obj
      [("id", Json.num 10), ("date", Json.str "2024-01-01"),
       ("link", Json.str "https://x/p/10"), ("title", Json.str "T"),
       ("content", Json.str "C"), ("featured_media", Json.num 0)]) := rfl

theorem fetch_error_class {net : String → Response} {url : String} {e : PyExc}
    (h : fetch_post_response_data net url = Except.error e) :
    e.cls = PyExcClass.httpStatusError := by
  rw [fetch_post_response_data] at h
  by_cases hs : is_success (net url).status
  · cases hb : (net url).jsonBody with
    | some j => simp [hs, hb] at h
    | none => simp [hs, hb] at h; rw [← h]
  · simp [hs] at h
    rw [← h]

/-- Claim C2: for every JSON object containing the keys id, date, link,
featured_media and the nested keys title.rendered and content.rendered,
format_post_response_data returns a dict with exactly the six fields id,
date, link, title, content, featured_media and no others, each value
copied verbatim from the source (title from title.rendered, content from
content.rendered, with no transformation). -/
theorem format_post_returns_exactly_six_fields
    (r vid vdate vlink vtitle vtitler vcontent vcontentr vfm : Json)
    (hid : jget r "id" = some vid)
    (hdate : jget r "date" = some vdate)
    (hlink : jget r "link" = some vlink)
    (htitle : jget r "title" = some vtitle)
    (htitler : jget vtitle "rendered" = some vtitler)
    (hcontent : jget r "content" = some vcontent)
    (hcontentr : jget vcontent "rendered" = some vcontentr)
    (hfm : jget r "featured_media" = some vfm) :
    format_post_response_data r =
      Except.ok (Json.obj [("id", vid), ("date", vdate), ("link", vlink),
        ("title", vtitler), ("content", vcontentr), ("featured_media", vfm)]) ∧
    keysOf [("id", vid), ("date", vdate), ("link", vlink),
        ("title", vtitler), ("content", vcontentr), ("featured_media", vfm)] =
      ["id", "date", "link", "title", "content", "featured_media"] := by
  refine ⟨?_, rfl⟩
  simp [format_post_response_data, pyIndexStr_eq_ok_iff.mpr hid,
    pyIndexStr_eq_ok_iff.mpr hdate, pyIndexStr_eq_ok_iff.mpr hlink,
    pyIndexStr_eq_ok_iff.mpr htitle, pyIndexStr_eq_ok_iff.mpr htitler,
    pyIndexStr_eq_ok_iff.mpr hcontent, pyIndexStr_eq_ok_iff.mpr hcontentr,
    pyIndexStr_eq_ok_iff.mpr hfm]

theorem format_post_returns_exactly_six_fields_witness :
    (jget samplePost "id" = some (Json.num 10) ∧
     jget samplePost "date" = some (Json.str "2024-01-01T00:00:00") ∧
     jget samplePost "link" = some (Json.str "https://site/p/10") ∧
     jget samplePost "title" = some (Json.obj [("rendered", Json.str "Post ten")]) ∧
     jget (Json.obj [("rendered", Json.str "Post ten")]) "rendered" = some (Json.str "Post ten") ∧
     jget samplePost "content" = some (Json.obj [("rendered", Json.str "<p>Body ten</p>")]) ∧
     jget (Json.obj [("rendered", Json.str "<p>Body ten</p>")]) "rendered" =
       some (Json.str "<p>Body ten</p>") ∧
     jget samplePost "featured_media" = some (Json.num 0)) ∧
    (format_post_response_data samplePost =
      Except.ok (Json.obj [("id", Json.num 10), ("date", Json.str "2024-01-01T00:00:00"),
        ("link", Json.str "https://site/p/10"), ("title", Json.str "Post ten"),
        ("content", Json.str "<p>Body ten</p>"), ("featured_media", Json.num 0)]) ∧
    keysOf [("id", Json.num 10), ("date", Json.str "2024-01-01T00:00:00"),
        ("link", Json.str "https://site/p/10"), ("title", Json.str "Post ten"),
        ("content", Json.str "<p>Body ten</p>"), ("featured_media", Json.num 0)] =
      ["id", "date", "link", "title", "content", "featured_media"]) :=
  ⟨⟨rfl, rfl, rfl, rfl, rfl, rfl, rfl, rfl⟩,
   format_post_returns_exactly_six_fields samplePost _ _ _ _ _ _ _ _
     rfl rfl rfl rfl rfl rfl rfl rfl⟩

/-- Claim C4: for every URL whose response has a status outside the 2xx
range, fetch_post_response_data fails with an httpx.HTTPStatusError-class
failure carrying the response (hence its status code and original
request), and never returns a value; the single GET is not retried. -/
theorem fetch_non_2xx_fails (net : String → Response) (url : String)
    (hfail : is_success (net url).status = false) :
    ∃ e, fetch_post_response_data net url = Except.error e ∧
      e.cls = PyExcClass.httpStatusError ∧
      e.response = some (net url) ∧
      ∀ j, fetch_post_response_data net url ≠ Except.ok j := by
  refine ⟨⟨PyExcClass.httpStatusError,
    "HTTP status error " ++ toString (net url).status ++ " for url " ++ url,
    some (net url)⟩, ?_, rfl, rfl, ?_⟩
  · simp [fetch_post_response_data, hfail]
  · intro j hj
    rw [fetch_post_response_data] at hj
    simp [hfail] at hj

theorem fetch_non_2xx_fails_witness :
    is_success (net404W "https://site/wp-json/wp/v2/posts/999").status = false ∧
    (∃ e, fetch_post_response_data net404W "https://site/wp-json/wp/v2/posts/999" =
        Except.error e ∧
      e.cls = PyExcClass.httpStatusError ∧
      e.response = some (net404W "https://site/wp-json/wp/v2/posts/999") ∧
      ∀ j, fetch_post_response_data net404W "https://site/wp-json/wp/v2/posts/999" ≠
        Except.ok j) :=
  ⟨rfl, fetch_non_2xx_fails net404W "https://site/wp-json/wp/v2/posts/999" rfl⟩

/-- Claim C1 (counterexample): a 200 response with the non-JSON body
"<html>not json</html>" and a 404 response produce errors of the same
exception class (httpx.HTTPStatusError on both paths, src/main.py lines
32 and 37), so the two cases are not distinguishable by error kind, as
the claim asserts. -/
theorem fetch_invalid_json_same_kind_counterexample :
    (net_c1 "https://site/ok").status = 200 ∧
    (net_c1 "https://site/ok").jsonBody = none ∧
    (net_c1 "https://site/missing").status = 404 ∧
    errClass (fetch_post_response_data net_c1 "https://site/ok") =
      some PyExcClass.httpStatusError ∧
    errClass (fetch_post_response_data net_c1 "https://site/missing") =
      some PyExcClass.httpStatusError :=
  ⟨rfl, rfl, rfl, rfl, rfl⟩

/-- Claim C1 (amended): for every URL whose response has a 2xx status but
a body that is not valid JSON, fetch_post_response_data fails with an
"invalid response body" error whose message contains the failing URL and
the raw body text and which carries the 2xx response; however the error
is the same exception kind (httpx.HTTPStatusError) as the one raised for
a non-2xx status — every fetch failure has that one class — so a caller
distinguishes the two cases by the attached response's status code, not
by error kind. -/
theorem fetch_invalid_json_error_amended (net : String → Response) (url : String)
    (hsucc : is_success (net url).status = true)
    (hbad : (net url).jsonBody = none) :
    ∃ e, fetch_post_response_data net url = Except.error e ∧
      e.cls = PyExcClass.httpStatusError ∧
      e.message = "Invalid JSON response from " ++ url ++ ": " ++ (net url).body ∧
      e.response = some (net url) ∧
      (∀ net2 url2 e2, fetch_post_response_data net2 url2 = Except.error e2 →
        e2.cls = e.cls) := by
  refine ⟨⟨PyExcClass.httpStatusError,
    "Invalid JSON response from " ++ url ++ ": " ++ (net url).body,
    some (net url)⟩, ?_, rfl, rfl, rfl, ?_⟩
  · simp [fetch_post_response_data, hsucc, hbad]
  · intro net2 url2 e2 h2
    exact fetch_error_class h2

theorem fetch_invalid_json_error_amended_witness :
    (is_success (netBadBody "https://site/wp-json").status = true ∧
     (netBadBody "https://site/wp-json").jsonBody = none) ∧
    (∃ e, fetch_post_response_data netBadBody "https://site/wp-json" = Except.error e ∧
      e.cls = PyExcClass.httpStatusError ∧
      e.message = "Invalid JSON response from " ++ "https://site/wp-json" ++ ": " ++
        (netBadBody "https://site/wp-json").body ∧
      e.response = some (netBadBody "https://site/wp-json") ∧
      (∀ net2 url2 e2, fetch_post_response_data net2 url2 = Except.error e2 →
        e2.cls = e.cls)) :=
  ⟨⟨rfl, rfl⟩, fetch_invalid_json_error_amended netBadBody "https://site/wp-json" rfl rfl⟩

/-- Claim C9: when fetch_post_response_data fails because the body is not
valid JSON, the raised error carries the original response, whose status
is in the 2xx range; when it fails on a non-2xx status, the carried
response's status is outside 2xx; both paths raise the
httpx.HTTPStatusError class, so a caller distinguishes the invalid-JSON
case from the status failure by the attached response's status code. -/
theorem fetch_failures_distinguished_by_status :
    (∀ (net : String → Response) (url : String),
      is_success (net url).status = true → (net url).jsonBody = none →
      ∃ e, fetch_post_response_data net url = Except.error e ∧
        e.cls = PyExcClass.httpStatusError ∧
        ∃ r, e.response = some r ∧ is_success r.status = true) ∧
    (∀ (net : String → Response) (url : String),
      is_success (net url).status = false →
      ∃ e, fetch_post_response_data net url = Except.error e ∧
        e.cls = PyExcClass.httpStatusError ∧
        ∃ r, e.response = some r ∧ is_success r.status = false) := by
  constructor
  · intro net url hsucc hbad
    refine ⟨⟨PyExcClass.httpStatusError,
      "Invalid JSON response from " ++ url ++ ": " ++ (net url).body,
      some (net url)⟩, ?_, rfl, net url, rfl, hsucc⟩
    simp [fetch_post_response_data, hsucc, hbad]
  · intro net url hfail
    refine ⟨⟨PyExcClass.httpStatusError,
      "HTTP status error " ++ toString (net url).status ++ " for url " ++ url,
      some (net url)⟩, ?_, rfl, net url, rfl, hfail⟩
    simp [fetch_post_response_data, hfail]

theorem fetch_failures_distinguished_by_status_witness :
    (is_success (netBadBody "https://site/a").status = true ∧
     (netBadBody "https://site/a").jsonBody = none ∧
     is_success (net404W "https://site/b").status = false) ∧
    ((∃ e, fetch_post_response_data netBadBody "https://site/a" = Except.error e ∧
        e.cls = PyExcClass.httpStatusError ∧
        ∃ r, e.response = some r ∧ is_success r.status = true) ∧
     (∃ e, fetch_post_response_data net404W "https://site/b" = Except.error e ∧
        e.cls = PyExcClass.httpStatusError ∧
        ∃ r, e.response = some r ∧ is_success r.status = false)) :=
  ⟨⟨rfl, rfl, rfl⟩,
   ⟨fetch_failures_distinguished_by_status.1 netBadBody "https://site/a" rfl rfl,
    fetch_failures_distinguished_by_status.2 net404W "https://site/b" rfl⟩⟩

/-- Claim C10: fetch_posts_by_category_tool builds its URL by plain
string interpolation with no escaping of the category argument: for every
base, category string c and page p the URL is exactly the concatenation
of the fixed pieces with c and p inserted verbatim, so a category value
containing query metacharacters passes through unchanged and alters the
effective query string, as the concrete example shows. -/
theorem fetch_posts_by_category_url_is_plain_concat :
    (∀ (base c : String) (p : Int),
      fetch_posts_by_category_url base c p =
        base ++ "/wp-json/wp/v2/posts?categories=" ++ c ++ "&page=" ++ toString p) ∧
    fetch_posts_by_category_url "https://site" "1&per_page=100" 2 =
      "https://site/wp-json/wp/v2/posts?categories=1&per_page=100&page=2" := by
  constructor
  · intro base c p
    simp [fetch_posts_by_category_url, toString_string, String.append_assoc,
      String.append_empty, String.empty_append]
  · rfl

/-- Claim C5: for each list endpoint (fetch_posts,
fetch_posts_by_category, fetch_pages, fetch_categories), if any single
element of the fetched list fails to shape, the whole tool call fails
with an error and returns no result at all — there is no partial-success
mode returning the successfully shaped items. -/
theorem list_tools_fail_fast :
    (∀ (net : String → Response) (base : String) (page per_page : Int) (items : List Json),
      is_success (net (fetch_posts_url base page per_page)).status = true →
      (net (fetch_posts_url base page per_page)).jsonBody = some (Json.arr items) →
      (∃ x ∈ items, ∃ e, format_post_response_data x = Except.error e) →
      ∃ e, fetch_posts_tool net base page per_page = Except.error e) ∧
    (∀ (net : String → Response) (base category : String) (page : Int) (items : List Json),
      is_success (net (fetch_posts_by_category_url base category page)).status = true →
      (net (fetch_posts_by_category_url base category page)).jsonBody =
        some (Json.arr items) →
      (∃ x ∈ items, ∃ e, format_post_response_data x = Except.error e) →
      ∃ e, fetch_posts_by_category_tool net base category page = Except.error e) ∧
    (∀ (net : String → Response) (base : String) (page per_page : Int) (items : List Json),
      is_success (net (fetch_pages_url base page per_page)).status = true →
      (net (fetch_pages_url base page per_page)).jsonBody = some (Json.arr items) →
      (∃ x ∈ items, ∃ e, format_post_response_data x = Except.error e) →
      ∃ e, fetch_pages_tool net base page per_page = Except.error e) ∧
    (∀ (net : String → Response) (base : String) (items : List Json),
      is_success (net (fetch_categories_url base)).status = true →
      (net (fetch_categories_url base)).jsonBody = some (Json.arr items) →
      (∃ x ∈ items, ∃ e, shape_category x = Except.error e) →
      ∃ e, fetch_categories_tool net base = Except.error e) := by
  refine ⟨?_, ?_, ?_, ?_⟩
  · intro net base page per_page items hsucc hbody hfail
    obtain ⟨e, hmap⟩ := mapExcept_error_of_mem hfail
    refine ⟨e, ?_⟩
    rw [fetch_posts_tool, fetch_ok_of_response hsucc hbody]
    simp [jsonIter, hmap]
  · intro net base category page items hsucc hbody hfail
    obtain ⟨e, hmap⟩ := mapExcept_error_of_mem hfail
    refine ⟨e, ?_⟩
    rw [fetch_posts_by_category_tool, fetch_ok_of_response hsucc hbody]
    simp [jsonIter, hmap]
  · intro net base page per_page items hsucc hbody hfail
    obtain ⟨e, hmap⟩ := mapExcept_error_of_mem hfail
    refine ⟨e, ?_⟩
    rw [fetch_pages_tool, fetch_ok_of_response hsucc hbody]
    simp [jsonIter, hmap]
  · intro net base items hsucc hbody hfail
    obtain ⟨e, hmap⟩ := mapExcept_error_of_mem hfail
    refine ⟨e, ?_⟩
    rw [fetch_categories_tool, fetch_ok_of_response hsucc hbody]
    simp [jsonIter, hmap]

theorem list_tools_fail_fast_witness :
    (is_success (netPostsBad (fetch_posts_url "https://site" 1 2)).status = true ∧
     (netPostsBad (fetch_posts_url "https://site" 1 2)).jsonBody =
       some (Json.arr [samplePost, badPost]) ∧
     (∃ x ∈ [samplePost, badPost], ∃ e, format_post_response_data x = Except.error e)) ∧
    (∃ e, fetch_posts_tool netPostsBad "https://site" 1 2 = Except.error e) :=
  ⟨⟨rfl, rfl,
    ⟨badPost, List.mem_cons_of_mem samplePost (List.mem_cons_self badPost []),
     ⟨⟨PyExcClass.keyError, "content", none⟩, rfl⟩⟩⟩,
   list_tools_fail_fast.1 netPostsBad "https://site" 1 2 [samplePost, badPost] rfl rfl
     ⟨badPost, List.mem_cons_of_mem samplePost (List.mem_cons_self badPost []),
      ⟨⟨PyExcClass.keyError, "content", none⟩, rfl⟩⟩⟩

/-- Claim C6: fetch_posts_tool requests exactly the URL
{base}/wp-json/wp/v2/posts?page={page}&per_page={per_page}, its declared
defaults are page=1 and per_page=2, and for a response that is a list of
N valid post objects it returns a list of exactly N shaped objects in the
same order, each with id matching the source post, title taken from
title.rendered and content taken from content.rendered. -/
theorem fetch_posts_tool_spec (net : String → Response) (base : String)
    (page per_page : Int) (posts : List Json)
    (hsucc : is_success (net (fetch_posts_url base page per_page)).status = true)
    (hbody : (net (fetch_posts_url base page per_page)).jsonBody = some (Json.arr posts))
    (hall : ∀ p ∈ posts, (format_post_response_data p).isOk = true) :
    fetch_posts_url base page per_page =
      base ++ "/wp-json/wp/v2/posts?page=" ++ toString page ++ "&per_page=" ++
        toString per_page ∧
    default_page = 1 ∧ default_per_page = 2 ∧
    ∃ shaped, fetch_posts_tool net base page per_page = Except.ok shaped ∧
      shaped.length = posts.length ∧
      List.Forall₂ (fun p s => format_post_response_data p = Except.ok s ∧
        jget s "id" = jget p "id" ∧
        jget s "title" = jget2 p "title" "rendered" ∧
        jget s "content" = jget2 p "content" "rendered") posts shaped := by
  refine ⟨?_, rfl, rfl, ?_⟩
  · simp [fetch_posts_url, toString_string, String.append_assoc,
      String.append_empty, String.empty_append]
  · obtain ⟨shaped, hmap, hrel⟩ := mapExcept_ok_of_forall hall
    refine ⟨shaped, ?_, hrel.length_eq.symm, ?_⟩
    · rw [fetch_posts_tool, fetch_ok_of_response hsucc hbody]
      simp [jsonIter, hmap]
    · exact hrel.imp (fun p s hps =>
        ⟨hps, (format_ok_fields hps).1, (format_ok_fields hps).2.1,
         (format_ok_fields hps).2.2⟩)

theorem fetch_posts_tool_spec_witness :
    (is_success (netPosts (fetch_posts_url "https://site" 1 2)).status = true ∧
     (netPosts (fetch_posts_url "https://site" 1 2)).jsonBody =
       some (Json.arr [samplePost, samplePost2]) ∧
     (∀ p ∈ [samplePost, samplePost2], (format_post_response_data p).isOk = true)) ∧
    (fetch_posts_url "https://site" 1 2 =
      "https://site" ++ "/wp-json/wp/v2/posts?page=" ++ toString (1 : Int) ++
        "&per_page=" ++ toString (2 : Int) ∧
    default_page = 1 ∧ default_per_page = 2 ∧
    ∃ shaped, fetch_posts_tool netPosts "https://site" 1 2 = Except.ok shaped ∧
      shaped.length = [samplePost, samplePost2].length ∧
      List.Forall₂ (fun p s => format_post_response_data p = Except.ok s ∧
        jget s "id" = jget p "id" ∧
        jget s "title" = jget2 p "title" "rendered" ∧
        jget s "content" = jget2 p "content" "rendered")
        [samplePost, samplePost2] shaped) :=
  ⟨⟨rfl, rfl, by decide⟩,
   fetch_posts_tool_spec netPosts "https://site" 1 2 [samplePost, samplePost2]
     rfl rfl (by decide)⟩

/-- Claim C8: format_post_response_data never mutates its input: at heap
level, every address allocated before the call (in particular the input
object and its field values) holds the same value after the call, and the
returned summary is a freshly allocated object at an address that did not
exist in the pre-call heap. -/
theorem format_post_heap_frame (h : Heap) (a : Nat) (h' : Heap) (r : Nat)
    (hok : format_post_response_data_heap h a = Except.ok (h', r)) :
    (∀ b, b < h.length → heapGet h' b = heapGet h b) ∧
    heapGet h' a = heapGet h a ∧
    heapGet h r = none ∧ r = h.length ∧ h'.length = h.length + 1 := by
  rw [format_post_response_data_heap] at hok
  rw [bind_eq_ok_iff] at hok
  obtain ⟨vid, h1, hok⟩ := hok
  rw [bind_eq_ok_iff] at hok
  obtain ⟨vdate, h2, hok⟩ := hok
  rw [bind_eq_ok_iff] at hok
  obtain ⟨vlink, h3, hok⟩ := hok
  rw [bind_eq_ok_iff] at hok
  obtain ⟨vtitle, h4, hok⟩ := hok
  rw [bind_eq_ok_iff] at hok
  obtain ⟨vtitler, h5, hok⟩ := hok
  rw [bind_eq_ok_iff] at hok
  obtain ⟨vcontent, h6, hok⟩ := hok
  rw [bind_eq_ok_iff] at hok
  obtain ⟨vcontentr, h7, hok⟩ := hok
  rw [bind_eq_ok_iff] at hok
  obtain ⟨vfm, h8, hok⟩ := hok
  injection hok with hpair
  rw [Prod.ext_iff] at hpair
  obtain ⟨hh, hr⟩ := hpair
  subst hh
  subst hr
  have halt : ∀ b, b < h.length →
      heapGet (h ++ [HVal.dict [("id", vid), ("date", vdate), ("link", vlink),
        ("title", vtitler), ("content", vcontentr), ("featured_media", vfm)]]) b =
      heapGet h b := by
    intro b hb
    simp only [heapGet]
    exact List.get?_append hb
  obtain ⟨es, hga, _⟩ := pyIndexHeap_ok_elim h1
  have halen : a < h.length := by
    by_contra hcon
    push_neg at hcon
    simp only [heapGet] at hga
    rw [List.get?_len_le hcon] at hga
    cases hga
  refine ⟨halt, halt a halen, ?_, rfl, by simp⟩
  simp only [heapGet]
  exact List.get?_len_le (le_refl h.length)

theorem format_post_heap_frame_witness :
    (format_post_response_data_heap sampleHeap 8 =
      Except.ok (sampleHeap ++ [HVal.dict [("id", 0), ("date", 1), ("link", 2),
        ("title", 4), ("content", 6), ("featured_media", 7)]], 9)) ∧
    ((∀ b, b < sampleHeap.length →
      heapGet (sampleHeap ++ [HVal.dict [("id", 0), ("date", 1), ("link", 2),
        ("title", 4), ("content", 6), ("featured_media", 7)]]) b = heapGet sampleHeap b) ∧
    heapGet (sampleHeap ++ [HVal.dict [("id", 0), ("date", 1), ("link", 2),
      ("title", 4), ("content", 6), ("featured_media", 7)]]) 8 = heapGet sampleHeap 8 ∧
    heapGet sampleHeap 9 = none ∧ (9 : Nat) = sampleHeap.length ∧
    (sampleHeap ++ [HVal.dict [("id", 0), ("date", 1), ("link", 2),
      ("title", 4), ("content", 6), ("featured_media", 7)]]).length =
      sampleHeap.length + 1) :=
  ⟨rfl,
   format_post_heap_frame sampleHeap 8
     (sampleHeap ++ [HVal.dict [("id", 0), ("date", 1), ("link", 2),
       ("title", 4), ("content", 6), ("featured_media", 7)]]) 9 rfl⟩

/-- Claim C3: for any JSON object missing one of its required (possibly
nested) keys — every present title/content value being an object, so the
absence is a missing key and not a type mismatch — the corresponding
shape function (format_post_response_data for posts and pages, the inline
category shaping of fetch_categories_tool) fails with a KeyError naming a
genuinely missing required key; it never returns a partial object and
never substitutes a default, since any returned object implies every
required key path was present. -/
theorem shape_missing_key_fails :
    (∀ entries : List (String × Json),
      postAllPresent (Json.obj entries) = false →
      (∀ t, jget (Json.obj entries) "title" = some t → ∃ te, t = Json.obj te) →
      (∀ c, jget (Json.obj entries) "content" = some c → ∃ ce, c = Json.obj ce) →
      ∃ e, format_post_response_data (Json.obj entries) = Except.error e ∧
        e.cls = PyExcClass.keyError ∧ postKeyMissing (Json.obj entries) e.message) ∧
    (∀ r s, format_post_response_data r = Except.ok s → postAllPresent r = true) ∧
    (∀ entries : List (String × Json),
      catAllPresent (Json.obj entries) = false →
      ∃ e, shape_category (Json.obj entries) = Except.error e ∧
        e.cls = PyExcClass.keyError ∧ e.message ∈ categoryRequiredKeys ∧
        jget (Json.obj entries) e.message = none) ∧
    (∀ c s, shape_category c = Except.ok s → catAllPresent c = true) := by
  refine ⟨?_, ?_, ?_, ?_⟩
  · intro entries hmiss htobj hcobj
    cases hid : lookup entries "id" with
    | none =>
      refine ⟨⟨PyExcClass.keyError, "id", none⟩, ?_, rfl, Or.inl ⟨?_, ?_⟩⟩
      · simp [format_post_response_data, pyIndexStr, hid]
      · simp [postRequiredTopKeys]
      · simp [jget, hid]
    | some vid =>
      cases hdate : lookup entries "date" with
      | none =>
        refine ⟨⟨PyExcClass.keyError, "date", none⟩, ?_, rfl, Or.inl ⟨?_, ?_⟩⟩
        · simp [format_post_response_data, pyIndexStr, hid, hdate]
        · simp [postRequiredTopKeys]
        · simp [jget, hdate]
      | some vdate =>
        cases hlink : lookup entries "link" with
        | none =>
          refine ⟨⟨PyExcClass.keyError, "link", none⟩, ?_, rfl, Or.inl ⟨?_, ?_⟩⟩
          · simp [format_post_response_data, pyIndexStr, hid, hdate, hlink]
          · simp [postRequiredTopKeys]
          · simp [jget, hlink]
        | some vlink =>
          cases htitle : lookup entries "title" with
          | none =>
            refine ⟨⟨PyExcClass.keyError, "title", none⟩, ?_, rfl, Or.inl ⟨?_, ?_⟩⟩
            · simp [format_post_response_data, pyIndexStr, hid, hdate, hlink, htitle]
            · simp [postRequiredTopKeys]
            · simp [jget, htitle]
          | some vtitle =>
            obtain ⟨te, rfl⟩ := htobj vtitle (by simp [jget, htitle])
            cases htr : lookup te "rendered" with
            | none =>
              refine ⟨⟨PyExcClass.keyError, "rendered", none⟩, ?_, rfl,
                Or.inr ⟨rfl, Or.inl ⟨Json.obj te, ?_, ?_⟩⟩⟩
              · simp [format_post_response_data, pyIndexStr, hid, hdate, hlink,
                  htitle, htr]
              · simp [jget, htitle]
              · simp [jget, htr]
            | some vtitler =>
              cases hcontent : lookup entries "content" with
              | none =>
                refine ⟨⟨PyExcClass.keyError, "content", none⟩, ?_, rfl,
                  Or.inl ⟨?_, ?_⟩⟩
                · simp [format_post_response_data, pyIndexStr, hid, hdate, hlink,
                    htitle, htr, hcontent]
                · simp [postRequiredTopKeys]
                · simp [jget, hcontent]
              | some vcontent =>
                obtain ⟨ce, rfl⟩ := hcobj vcontent (by simp [jget, hcontent])
                cases hcr : lookup ce "rendered" with
                | none =>
                  refine ⟨⟨PyExcClass.keyError, "rendered", none⟩, ?_, rfl,
                    Or.inr ⟨rfl, Or.inr ⟨Json.obj ce, ?_, ?_⟩⟩⟩
                  · simp [format_post_response_data, pyIndexStr, hid, hdate, hlink,
                      htitle, htr, hcontent, hcr]
                  · simp [jget, hcontent]
                  · simp [jget, hcr]
                | some vcontentr =>
                  cases hfm : lookup entries "featured_media" with
                  | none =>
                    refine ⟨⟨PyExcClass.keyError, "featured_media", none⟩, ?_, rfl,
                      Or.inl ⟨?_, ?_⟩⟩
                    · simp [format_post_response_data, pyIndexStr, hid, hdate, hlink,
                        htitle, htr, hcontent, hcr, hfm]
                    · simp [postRequiredTopKeys]
                    · simp [jget, hfm]
                  | some vfm =>
                    exact absurd hmiss (by
                      simp [postAllPresent, jget, jget2, hid, hdate, hlink,
                        htitle, htr, hcontent, hcr, hfm])
  · intro r s hok
    obtain ⟨vid, vdate, vlink, vtitle, vtitler, vcontent, vcontentr, vfm,
      h1, h2, h3, h4, h5, h6, h7, h8, _⟩ := format_ok_elim hok
    have htr : jget2 r "title" "rendered" = some vtitler := by
      rw [jget2, h4]; exact h5
    have hcr : jget2 r "content" "rendered" = some vcontentr := by
      rw [jget2, h6]; exact h7
    simp [postAllPresent, h1, h2, h3, htr, hcr, h8]
  · intro entries hmiss
    cases hid : lookup entries "id" with
    | none =>
      refine ⟨⟨PyExcClass.keyError, "id", none⟩, ?_, rfl, ?_, ?_⟩
      · simp [shape_category, pyIndexStr, hid]
      · simp [categoryRequiredKeys]
      · simp [jget, hid]
    | some vid =>
      cases hname : lookup entries "name" with
      | none =>
        refine ⟨⟨PyExcClass.keyError, "name", none⟩, ?_, rfl, ?_, ?_⟩
        · simp [shape_category, pyIndexStr, hid, hname]
        · simp [categoryRequiredKeys]
        · simp [jget, hname]
      | some vname =>
        cases hcount : lookup entries "count" with
        | none =>
          refine ⟨⟨PyExcClass.keyError, "count", none⟩, ?_, rfl, ?_, ?_⟩
          · simp [shape_category, pyIndexStr, hid, hname, hcount]
          · simp [categoryRequiredKeys]
          · simp [jget, hcount]
        | some vcount =>
          cases hlink : lookup entries "link" with
          | none =>
            refine ⟨⟨PyExcClass.keyError, "link", none⟩, ?_, rfl, ?_, ?_⟩
            · simp [shape_category, pyIndexStr, hid, hname, hcount, hlink]
            · simp [categoryRequiredKeys]
            · simp [jget, hlink]
          | some vlink =>
            exact absurd hmiss (by
              simp [catAllPresent, jget, hid, hname, hcount, hlink])
  · intro c s hok
    obtain ⟨vid, vname, vcount, vlink, h1, h2, h3, h4, _⟩ := shape_category_ok_elim hok
    simp [catAllPresent, h1, h2, h3, h4]

theorem shape_missing_key_fails_witness :
    (postAllPresent (Json.obj badPostEntries) = false ∧
     (∀ t, jget (Json.obj badPostEntries) "title" = some t → ∃ te, t = Json.obj te) ∧
     (∀ c, jget (Json.obj badPostEntries) "content" = some c → ∃ ce, c = Json.obj ce)) ∧
    (∃ e, format_post_response_data (Json.obj badPostEntries) = Except.error e ∧
      e.cls = PyExcClass.keyError ∧ postKeyMissing (Json.obj badPostEntries) e.message) := by
  have htobj : ∀ t, jget (Json.obj badPostEntries) "title" = some t →
      ∃ te, t = Json.obj te := by
    intro t ht
    simp [badPostEntries, jget, lookup] at ht
    exact ⟨_, ht.symm⟩
  have hcobj : ∀ c, jget (Json.obj badPostEntries) "content" = some c →
      ∃ ce, c = Json.obj ce := by
    intro c hc
    simp [badPostEntries, jget, lookup] at hc
  exact ⟨⟨rfl, htobj, hcobj⟩,
    shape_missing_key_fails.1 badPostEntries rfl htobj hcobj⟩

/-- Claim C7: for every category JSON object whose keys are exactly the
four required keys id, name, count, link, the inline category shaping of
fetch_categories_tool is the identity up to Python dict equality (every
key looks up to the same unmodified value); when the entry order is
exactly id, name, count, link — as in the spec's example — the result is
the input object itself, and fetch_categories_tool maps a singleton list
of such an object to the identical singleton list. -/
theorem shape_category_is_identity (entries : List (String × Json))
    (hperm : List.Perm (keysOf entries) ["id", "name", "count", "link"]) :
    ∃ out, shape_category (Json.obj entries) = Except.ok (Json.obj out) ∧
      (∀ k, lookup out k = lookup entries k) ∧
      (keysOf entries = ["id", "name", "count", "link"] →
        Json.obj out = Json.obj entries ∧
        ∀ (net : String → Response) (base : String),
          is_success (net (fetch_categories_url base)).status = true →
          (net (fetch_categories_url base)).jsonBody =
            some (Json.arr [Json.obj entries]) →
          fetch_categories_tool net base = Except.ok [Json.obj entries]) := by
  have hmem1 : "id" ∈ keysOf entries := hperm.mem_iff.mpr (by simp)
  have hmem2 : "name" ∈ keysOf entries := hperm.mem_iff.mpr (by simp)
  have hmem3 : "count" ∈ keysOf entries := hperm.mem_iff.mpr (by simp)
  have hmem4 : "link" ∈ keysOf entries := hperm.mem_iff.mpr (by simp)
  obtain ⟨vid, hid⟩ := lookup_isSome_of_mem hmem1
  obtain ⟨vname, hname⟩ := lookup_isSome_of_mem hmem2
  obtain ⟨vcount, hcount⟩ := lookup_isSome_of_mem hmem3
  obtain ⟨vlink, hlink⟩ := lookup_isSome_of_mem hmem4
  refine ⟨[("id", vid), ("name", vname), ("count", vcount), ("link", vlink)],
    ?_, ?_, ?_⟩
  · simp [shape_category, pyIndexStr, hid, hname, hcount, hlink]
  · intro k
    by_cases hk1 : k = "id"
    · subst hk1; simp [lookup, hid]
    · by_cases hk2 : k = "name"
      · subst hk2; simp [lookup, hname]
      · by_cases hk3 : k = "count"
        · subst hk3; simp [lookup, hcount]
        · by_cases hk4 : k = "link"
          · subst hk4; simp [lookup, hlink]
          · have hnot : k ∉ keysOf entries := by
              rw [hperm.mem_iff]
              simp [hk1, hk2, hk3, hk4]
            rw [lookup_eq_none_iff.mpr hnot]
            simp [lookup, hk1, hk2, hk3, hk4]
  · intro hord
    cases entries with
    | nil => simp [keysOf] at hord
    | cons p1 t1 =>
      obtain ⟨k1, v1⟩ := p1
      cases t1 with
      | nil => simp [keysOf] at hord
      | cons p2 t2 =>
        obtain ⟨k2, v2⟩ := p2
        cases t2 with
        | nil => simp [keysOf] at hord
        | cons p3 t3 =>
          obtain ⟨k3, v3⟩ := p3
          cases t3 with
          | nil => simp [keysOf] at hord
          | cons p4 t4 =>
            obtain ⟨k4, v4⟩ := p4
            cases t4 with
            | cons p5 t5 => simp [keysOf] at hord
            | nil =>
              simp [keysOf] at hord
              obtain ⟨hk1, hk2, hk3, hk4⟩ := hord
              subst hk1; subst hk2; subst hk3; subst hk4
              simp [lookup] at hid hname hcount hlink
              subst hid; subst hname; subst hcount; subst hlink
              refine ⟨rfl, ?_⟩
              intro net base hsucc hbody
              rw [fetch_categories_tool, fetch_ok_of_response hsucc hbody]
              simp [jsonIter, mapExcept, shape_category, pyIndexStr, lookup]

theorem shape_category_is_identity_witness :
    List.Perm (keysOf sampleCategoryEntries) ["id", "name", "count", "link"] ∧
    (∃ out, shape_category (Json.obj sampleCategoryEntries) = Except.ok (Json.obj out) ∧
      (∀ k, lookup out k = lookup sampleCategoryEntries k) ∧
      (keysOf sampleCategoryEntries = ["id", "name", "count", "link"] →
        Json.obj out = Json.obj sampleCategoryEntries ∧
        ∀ (net : String → Response) (base : String),
          is_success (net (fetch_categories_url base)).status = true →
          (net (fetch_categories_url base)).jsonBody =
            some (Json.arr [Json.obj sampleCategoryEntries]) →
          fetch_categories_tool net base =
            Except.ok [Json.obj sampleCategoryEntries])) :=
  ⟨List.Perm.refl _, shape_category_is_identity sampleCategoryEntries (List.Perm.refl _)⟩

end WP
